import Mathlib

/-!
Verification development for the social-media content harvester.

The definitions below are a shallow embedding of the Python sources
`src/api/scrape.py` (the `UnifiedScraper` multi-strategy fallback resolver)
and `src/social_scraper.py` (the `AdvancedScraper` comment flattener,
normalizer, filter pipeline and export).  HTTP calls are modelled as
environments: a strategy either raises an exception or returns a parsed
response, exactly the two outcomes the Python code distinguishes.  Python
strings are modelled as lists of characters; Python's ASCII-relevant
`str.lower`, `str.strip`, `str.replace` and slicing are embedded directly.
`datetime.fromtimestamp(..).isoformat()` is embedded with the process
timezone taken to be UTC (the serverless deployment default).
-/

namespace Harvest

/-- Python strings are modelled as lists of characters. -/
abbrev Str := List Char

/-- Conversion from Lean string literals to the model's strings. -/
def str (s : String) : Str := s.data

/-- Characters treated as whitespace by `str.strip()` (ASCII fragment). -/
def isPySpace (c : Char) : Bool := c = ' ' || c = '\t' || c = '\n' || c = '\r'

/-- Embedding of Python `s.strip()`: drop whitespace from both ends. -/
def pyStrip (s : Str) : Str :=
  ((s.dropWhile isPySpace).reverse.dropWhile isPySpace).reverse

/-- Embedding of Python `s.lower()` on the ASCII range. -/
def pyLower (s : Str) : Str := s.map Char.toLower

/-- Fuel-driven worker for `replaceAll`; the fuel is an upper bound on the
remaining string length, so it never runs out at the call site below. -/
def replaceAllF : Nat → Str → Str → Str → Str
  | _, _, _, [] => []
  | 0, _, _, s => s
  | fuel + 1, pat, rep, c :: rest =>
    if pat ≠ [] ∧ pat.isPrefixOf (c :: rest) then
      rep ++ replaceAllF fuel pat rep ((c :: rest).drop pat.length)
    else
      c :: replaceAllF fuel pat rep rest

/-- Embedding of Python `s.replace(pat, rep)`: replace all non-overlapping
occurrences of `pat` left to right (all call sites use a non-empty `pat`). -/
def replaceAll (pat rep s : Str) : Str := replaceAllF s.length pat rep s

/-- Embedding of Python `l[:k]` for a non-negative or negative stop index. -/
def pySliceTo (k : Int) {α : Type} (l : List α) : List α :=
  if k < 0 then l.take (((l.length : Int) + k).toNat) else l.take k.toNat

/-- Decimal digits of a natural number, zero-padded on the left to width `w`. -/
def padNat (w n : Nat) : Str :=
  let ds := Nat.toDigits 10 n
  List.replicate (w - ds.length) '0' ++ ds

/-- A Python `datetime` value (naive, second precision). -/
structure DateTime where
  year : Nat
  month : Nat
  day : Nat
  hour : Nat
  minute : Nat
  second : Nat
deriving DecidableEq, Repr

/-- Lexicographic strict comparison of `datetime` values, as Python's `<`. -/
def dtLt (a b : DateTime) : Bool :=
  if a.year ≠ b.year then a.year < b.year
  else if a.month ≠ b.month then a.month < b.month
  else if a.day ≠ b.day then a.day < b.day
  else if a.hour ≠ b.hour then a.hour < b.hour
  else if a.minute ≠ b.minute then a.minute < b.minute
  else a.second < b.second

/-- Civil date from a count of days since 1970-01-01 (Gregorian calendar,
era-based algorithm). -/
def civilFromDays (z0 : Nat) : Nat × Nat × Nat :=
  let z := z0 + 719468
  let era := z / 146097
  let doe := z % 146097
  let yoe := (doe - doe / 1460 + doe / 36524 - doe / 146096) / 365
  let y := yoe + era * 400
  let doy := doe - (365 * yoe + yoe / 4 - yoe / 100)
  let mp := (5 * doy + 2) / 153
  let d := doy - (153 * mp + 2) / 5 + 1
  let m := if mp < 10 then mp + 3 else mp - 9
  (if m ≤ 2 then y + 1 else y, m, d)

/-- Embedding of `datetime.fromtimestamp(t)` with the process timezone UTC. -/
def dtFromEpoch (t : Nat) : DateTime :=
  let days := t / 86400
  let secs := t % 86400
  let ymd := civilFromDays days
  ⟨ymd.1, ymd.2.1, ymd.2.2, secs / 3600, secs % 3600 / 60, secs % 60⟩

/-- Embedding of `datetime.isoformat()` at second precision. -/
def dtIso (d : DateTime) : Str :=
  padNat 4 d.year ++ str "-" ++ padNat 2 d.month ++ str "-" ++ padNat 2 d.day ++
  str "T" ++ padNat 2 d.hour ++ str ":" ++ padNat 2 d.minute ++ str ":" ++ padNat 2 d.second

/-- Embedding of `datetime.fromtimestamp(t).isoformat()` (UTC). -/
def isoFromEpoch (t : Nat) : Str := dtIso (dtFromEpoch t)

/-- Embedding of `datetime.strftime('%Y%m%d_%H%M%S')`. -/
def fmtTimestamp (d : DateTime) : Str :=
  padNat 4 d.year ++ padNat 2 d.month ++ padNat 2 d.day ++ str "_" ++
  padNat 2 d.hour ++ padNat 2 d.minute ++ padNat 2 d.second

/-- Value of an ASCII digit character, `none` for non-digits. -/
def digitVal (c : Char) : Option Nat :=
  if c.isDigit then some (c.toNat - 48) else none

/-- Strip the Reddit fullname prefixes: `.replace('t1_', '').replace('t3_', '')`. -/
def stripT1T3 (s : Str) : Str := replaceAll (str "t3_") [] (replaceAll (str "t1_") [] s)

/-! ## Reddit comment trees (`AdvancedScraper._parse_comments_recursive`)

A listing child is either a comment (`kind == 't1'`, carrying a data dict and
a `replies` value that is a listing dict or the empty string) or a
"load more comments" marker (`kind == 'more'`).  Absent dict keys are
modelled as `none`; Python `dict.get` defaults appear at the use sites. -/

/-- The fields of a Reddit comment's `data` dict that the flattener reads. -/
structure CFields where
  id : Option Str
  author : Option Str
  body : Option Str
  score : Option Int
  created_utc : Option Nat
  edited : Bool
  is_submitter : Bool
  distinguished : Option Str
  total_awards_received : Option Int
  controversiality : Option Int
  permalink : Option Str
  parent_id : Option Str
deriving DecidableEq, Repr

/-- A node of a Reddit comment listing: a `t1` comment whose `replies` is
either a listing (`some children`) or the empty string / missing (`none`),
or a `more` continuation marker. -/
inductive RNode where
  | t1 (data : CFields) (replies : Option (List RNode))
  | more (count : Option Nat) (children : List Str) (parent_id : Option Str)

/-- A flattened entry emitted by the comment flattener: either a parsed
comment dict or a `more_comments` placeholder dict. -/
inductive Flat where
  | comment (id : Option Str) (author : Str) (text : Str) (score : Int)
      (created_at : Str) (edited : Bool) (is_submitter : Bool)
      (distinguished : Option Str) (awards : Int) (controversiality : Int)
      (depth : Nat) (permalink : Str) (parent_id : Str) (is_deleted : Bool)
  | moreStub (count : Nat) (depth : Nat) (parent_id : Str) (comment_ids : List Str)
deriving DecidableEq, Repr

/-- The `depth` field of a flattened entry. -/
def Flat.depthOf : Flat → Nat
  | .comment _ _ _ _ _ _ _ _ _ _ d _ _ _ => d
  | .moreStub _ d _ _ => d

/-- Whether a flattened entry is a `more_comments` placeholder. -/
def Flat.isMoreStub : Flat → Bool
  | .comment _ _ _ _ _ _ _ _ _ _ _ _ _ _ => false
  | .moreStub _ _ _ _ => true

/-- The comment dict built for one `t1` node at a given depth (the
`parsed_comment` literal in `_parse_comments_recursive`). -/
def flatOfComment (c : CFields) (depth : Nat) : Flat :=
  .comment c.id (c.author.getD (str "[deleted]")) (c.body.getD (str "[deleted]"))
    (c.score.getD 0) (isoFromEpoch (c.created_utc.getD 0)) c.edited c.is_submitter
    c.distinguished (c.total_awards_received.getD 0) (c.controversiality.getD 0)
    depth (str "https://reddit.com" ++ c.permalink.getD [])
    (stripT1T3 (c.parent_id.getD []))
    (c.body == some (str "[deleted]") || c.body == some (str "[removed]"))

/-- Embedding of `AdvancedScraper._parse_comments_recursive`: flatten a
nested comment listing; recurse into replies only while `depth < max_depth`;
emit a placeholder for a `more` marker only when its `children` list is
non-empty and its `count` value is positive. -/
def parseCommentsRec (items : List RNode) (depth max_depth : Nat) : List Flat :=
  match items with
  | [] => []
  | RNode.t1 data replies :: rest =>
    let here := flatOfComment data depth
    let nested :=
      if depth < max_depth then
        match replies with
        | some children => parseCommentsRec children (depth + 1) max_depth
        | none => []
      else []
    here :: (nested ++ parseCommentsRec rest depth max_depth)
  | RNode.more count children parent_id :: rest =>
    let stub :=
      if children ≠ [] ∧ count.getD 0 > 0 then
        [Flat.moreStub (count.getD children.length) depth
          (stripT1T3 (parent_id.getD [])) children]
      else []
    stub ++ parseCommentsRec rest depth max_depth

/-- Spec-side flattener, written from the spec's words: every comment of the
tree appears once, in preorder, annotated with its true nesting level; no
depth cutoff, `more` markers ignored. -/
def specFlatten (items : List RNode) (level : Nat) : List Flat :=
  match items with
  | [] => []
  | RNode.t1 data (some children) :: rest =>
    flatOfComment data level ::
      (specFlatten children (level + 1) ++ specFlatten rest level)
  | RNode.t1 data none :: rest => flatOfComment data level :: specFlatten rest level
  | RNode.more _ _ _ :: rest => specFlatten rest level

/-- Number of comment (`t1`) nodes in a listing, counting nested replies. -/
def countComments (items : List RNode) : Nat :=
  match items with
  | [] => 0
  | RNode.t1 _ (some children) :: rest => 1 + countComments children + countComments rest
  | RNode.t1 _ none :: rest => 1 + countComments rest
  | RNode.more _ _ _ :: rest => countComments rest

/-- Nesting height of a listing: `0` for empty, a lone comment counts `1`,
its replies one more level. -/
def heightL (items : List RNode) : Nat :=
  match items with
  | [] => 0
  | RNode.t1 _ (some children) :: rest => max (1 + heightL children) (heightL rest)
  | RNode.t1 _ none :: rest => max 1 (heightL rest)
  | RNode.more _ _ _ :: rest => max 1 (heightL rest)

/-- Whether a listing (including nested replies) contains no `more` marker. -/
def noMores (items : List RNode) : Bool :=
  match items with
  | [] => true
  | RNode.t1 _ (some children) :: rest => noMores children && noMores rest
  | RNode.t1 _ none :: rest => noMores rest
  | RNode.more _ _ _ :: _ => false

/-- Spec-side collector of the `more` markers the flattener can reach: the
placeholders for qualifying markers (non-empty `children`, positive `count`),
in order, visiting replies only while `depth < max_depth`. -/
def collectMores (items : List RNode) (depth max_depth : Nat) : List Flat :=
  match items with
  | [] => []
  | RNode.t1 _ replies :: rest =>
    (if depth < max_depth then
      match replies with
      | some children => collectMores children (depth + 1) max_depth
      | none => []
    else []) ++ collectMores rest depth max_depth
  | RNode.more count children parent_id :: rest =>
    (if children ≠ [] ∧ count.getD 0 > 0 then
      [Flat.moreStub (count.getD children.length) depth
        (stripT1T3 (parent_id.getD [])) children]
    else []) ++ collectMores rest depth max_depth

/-- Embedding of `datetime.fromisoformat` restricted to the
`YYYY-MM-DDTHH:MM:SS` shape that this system's normalizers emit; any other
shape is a parse failure (the caller catches the exception). -/
def parseIsoDT : Str → Option DateTime
  | [y1, y2, y3, y4, '-', m1, m2, '-', d1, d2, 'T', h1, h2, ':', n1, n2, ':', s1, s2] =>
    match digitVal y1, digitVal y2, digitVal y3, digitVal y4,
          digitVal m1, digitVal m2, digitVal d1, digitVal d2,
          digitVal h1, digitVal h2, digitVal n1, digitVal n2,
          digitVal s1, digitVal s2 with
    | some a, some b, some c, some d, some e, some f, some g, some h,
      some i, some j, some k, some l, some m, some n =>
      some ⟨a * 1000 + b * 100 + c * 10 + d, e * 10 + f, g * 10 + h,
            i * 10 + j, k * 10 + l, m * 10 + n⟩
    | _, _, _, _, _, _, _, _, _, _, _, _, _, _ => none
  | _ => none

/-! ## Filter pipeline (`AdvancedScraper.apply_filters` and helpers) -/

/-- Contiguous-substring test, Python's `p in l` on strings. -/
def infixB (p : Str) : Str → Bool
  | [] => p.isEmpty
  | c :: rest => p.isPrefixOf (c :: rest) || infixB p rest

/-- A value stored in an item's `engagement` dict: numeric or not. -/
inductive EngVal where
  | num (n : Int)
  | other (s : Str)
deriving DecidableEq, Repr

/-- The dict-view of a scraped record as the filter functions access it:
`title`/`content`/`author` default to the empty string when absent. -/
structure Item where
  title : Str
  content : Str
  author : Str
  created_at : Option Str
  engagement : List (Str × EngVal)
  itemType : Option Str
deriving DecidableEq, Repr

/-- The filter configuration dict.  `none` models an absent key.  Date bounds
are taken as `datetime` values (the `isinstance(date_input, datetime)` branch
of `parse_date` returns them unchanged); `fetch_comments` is read by
`scrape_reddit`, not by any filter stage. -/
structure FilterSpec where
  date_from : Option DateTime := none
  date_to : Option DateTime := none
  min_engagement : Option Int := none
  keywords : Option (List Str) := none
  exclude_keywords : Option (List Str) := none
  content_type : Option Str := none
  limit : Option Int := none
  fetch_comments : Option Bool := none
deriving DecidableEq, Repr

/-- The empty filter dict (Python `not filters` is true exactly here). -/
def FilterSpec.empty : FilterSpec := {}

/-- Embedding of `parse_date` on the inputs the pipeline is given here:
`None` stays `None`, a `datetime` value is returned unchanged. -/
def parseDate (d : Option DateTime) : Option DateTime := d

/-- Embedding of `AdvancedScraper.is_within_date_range`: a missing or empty
date string passes; an unparseable one raises, which the handler turns into
a pass; otherwise compare against the optional bounds. -/
def isWithinDateRange (date_str : Option Str) (date_from date_to : Option DateTime) : Bool :=
  match date_str with
  | none => true
  | some [] => true
  | some s =>
    match parseIsoDT s with
    | none => true
    | some d =>
      if date_from.any (fun lo => dtLt d lo) then false
      else if date_to.any (fun hi => dtLt hi d) then false
      else true

/-- Embedding of `AdvancedScraper.get_total_engagement`: the sum of the
numeric values of the item's `engagement` dict. -/
def getTotalEngagement (item : Item) : Int :=
  (item.engagement.map (fun kv =>
    match kv.2 with
    | EngVal.num n => n
    | EngVal.other _ => 0)).sum

/-- The searchable text of `contains_keywords`:
`' '.join([title, content, author]).lower()`. -/
def searchableOf (item : Item) : Str :=
  pyLower (item.title ++ [' '] ++ item.content ++ [' '] ++ item.author)

/-- Embedding of `AdvancedScraper.contains_keywords`: an empty keyword list
passes everything, otherwise test whether any lowered keyword occurs in the
lowered joined text. -/
def containsKeywords (item : Item) (keywords : List Str) : Bool :=
  match keywords with
  | [] => true
  | _ => keywords.any (fun kw => infixB (pyLower kw) (searchableOf item))

/-- Stage 1 of `apply_filters`: the date-range filter, active when either
date key is present. -/
def dateStage (filters : FilterSpec) (l : List Item) : List Item :=
  if filters.date_from.isSome || filters.date_to.isSome then
    l.filter (fun item =>
      isWithinDateRange item.created_at (parseDate filters.date_from) (parseDate filters.date_to))
  else l

/-- Stage 2: the engagement-threshold filter (skipped when the key is absent
or its value is `None`). -/
def engagementStage (filters : FilterSpec) (l : List Item) : List Item :=
  match filters.min_engagement with
  | some m => l.filter (fun item => m ≤ getTotalEngagement item)
  | none => l

/-- Stage 3: the keyword include filter. -/
def includeStage (filters : FilterSpec) (l : List Item) : List Item :=
  match filters.keywords with
  | some kws => l.filter (fun item => containsKeywords item kws)
  | none => l

/-- Stage 4: the keyword exclude filter. -/
def excludeStage (filters : FilterSpec) (l : List Item) : List Item :=
  match filters.exclude_keywords with
  | some kws => l.filter (fun item => !containsKeywords item kws)
  | none => l

/-- Stage 5: the content-type filter. -/
def contentTypeStage (filters : FilterSpec) (l : List Item) : List Item :=
  match filters.content_type with
  | some ct => l.filter (fun item => item.itemType == some ct)
  | none => l

/-- Stage 6: the result limit, Python's `filtered[:limit]`. -/
def limitStage (filters : FilterSpec) (l : List Item) : List Item :=
  match filters.limit with
  | some k => pySliceTo k l
  | none => l

/-- Embedding of `AdvancedScraper.apply_filters`: an empty filter dict is
returned unchanged; otherwise the six guarded stages run in source order
(date range, engagement, keywords, exclude keywords, content type, limit). -/
def applyFilters (data : List Item) (filters : FilterSpec) : List Item :=
  if filters = FilterSpec.empty then data
  else
    let filtered := data
    let filtered :=
      if filters.date_from.isSome || filters.date_to.isSome then
        filtered.filter (fun item =>
          isWithinDateRange item.created_at (parseDate filters.date_from) (parseDate filters.date_to))
      else filtered
    let filtered :=
      match filters.min_engagement with
      | some m => filtered.filter (fun item => m ≤ getTotalEngagement item)
      | none => filtered
    let filtered :=
      match filters.keywords with
      | some kws => filtered.filter (fun item => containsKeywords item kws)
      | none => filtered
    let filtered :=
      match filters.exclude_keywords with
      | some kws => filtered.filter (fun item => !containsKeywords item kws)
      | none => filtered
    let filtered :=
      match filters.content_type with
      | some ct => filtered.filter (fun item => item.itemType == some ct)
      | none => filtered
    let filtered :=
      match filters.limit with
      | some k => pySliceTo k filtered
      | none => filtered
    filtered

/-- Spec-side predicate for claim C5, from the claim's words: the item's
text, title or author contains the keyword, case-insensitively (the keyword
is checked against each field separately, not against a joined string). -/
def specContainsKw (kw : Str) (item : Item) : Bool :=
  infixB (pyLower kw) (pyLower item.title) ||
  infixB (pyLower kw) (pyLower item.content) ||
  infixB (pyLower kw) (pyLower item.author)

/-! ## HTTP and scraper-call environments

An HTTP request either raises (network error, or a parse error inside the
same `try`) or yields a parsed response with a status code; a call into a
helper scraper either raises or returns its value. -/

/-- Outcome of an HTTP request plus response parsing. -/
inductive Outcome (α : Type) where
  | exn (msg : Str)
  | resp (status : Nat) (body : α)
deriving DecidableEq

/-- Outcome of a call into a helper scraper object. -/
inductive CallOut (α : Type) where
  | exn (msg : Str)
  | ret (v : α)
deriving DecidableEq

/-! ## Reddit post normalizer (`AdvancedScraper`, `UnifiedScraper.scrape_reddit`)

A raw Reddit post dict as the three Reddit strategies read it.  Numeric
values (including the float `upvote_ratio`) are modelled as integers; no
claim inspects their arithmetic. -/

/-- The fields of a raw Reddit post dict read by the normalizers. -/
structure RawPost where
  id : Option Str := none
  author : Option Str := none
  title : Option Str := none
  selftext : Option Str := none
  permalink : Option Str := none
  created_utc : Option Nat := none
  subreddit : Option Str := none
  score : Option Int := none
  num_comments : Option Int := none
  upvote_ratio : Option Int := none
  media : Bool := false
  thumbnail : Option Str := none
  link_flair_text : Option Str := none
  total_awards_received : Option Int := none
  is_video : Option Bool := none
deriving DecidableEq, Repr

/-- The `thumbnail` expression common to the normalizers:
`post.get('thumbnail') if post.get('thumbnail') not in ['self', 'default'] else None`. -/
def thumbOf (t : Option Str) : Option Str :=
  if t == some (str "self") || t == some (str "default") then none else t

/-- A record produced by `AdvancedScraper.format_reddit_post`. -/
structure FormattedPost where
  platform : Str
  ftype : Str
  id : Option Str
  author : Str
  title : Str
  content : Str
  url : Str
  created_at : Str
  subreddit : Str
  eng_score : Int
  eng_comments : Int
  eng_upvote_ratio : Int
  has_media : Bool
  thumbnail : Option Str
  flair : Option Str
  awards : Int
  comments : Option (List Flat)
deriving DecidableEq, Repr

/-- Embedding of `AdvancedScraper.format_reddit_post`.  `commentsEnv` models
what `scrape_reddit_comments` returns for a post URL when comments are
fetched. -/
def formatRedditPost (post : RawPost) (fetch_comments : Bool)
    (commentsEnv : Str → List Flat) : FormattedPost :=
  let url := str "https://reddit.com" ++ post.permalink.getD []
  { platform := str "reddit"
    ftype := str "post"
    id := post.id
    author := post.author.getD (str "[deleted]")
    title := post.title.getD []
    content := (post.selftext.getD []).take 1000
    url := url
    created_at := isoFromEpoch (post.created_utc.getD 0)
    subreddit := post.subreddit.getD []
    eng_score := post.score.getD 0
    eng_comments := post.num_comments.getD 0
    eng_upvote_ratio := post.upvote_ratio.getD 0
    has_media := post.media
    thumbnail := thumbOf post.thumbnail
    flair := post.link_flair_text
    awards := post.total_awards_received.getD 0
    comments :=
      if fetch_comments ∧ post.permalink.getD [] ≠ [] then some (commentsEnv url)
      else none }

/-- Embedding of the subreddit branch of `AdvancedScraper.scrape_reddit`:
on HTTP 200 every child of the `hot` listing is normalized; any exception
or non-200 yields no results. -/
def scrapeRedditHot (env : Outcome (List RawPost)) (filters : FilterSpec)
    (commentsEnv : Str → List Flat) : List FormattedPost :=
  match env with
  | .exn _ => []
  | .resp status children =>
    if status = 200 then
      children.map (fun post =>
        formatRedditPost post (filters.fetch_comments.getD true) commentsEnv)
    else []

/-! ## The `UnifiedScraper.scrape_reddit` fallback chain (`src/api/scrape.py`) -/

/-- A raw comment dict from the Arctic Shift comments endpoint. -/
structure ArcComment where
  author : Option Str := none
  body : Option Str := none
  score : Option Int := none
  created_utc : Option Nat := none
  permalink : Option Str := none
deriving DecidableEq, Repr

/-- A parsed entry of the subreddit RSS (Atom) feed; `none` models a missing
element or attribute. -/
structure RssEntry where
  title : Option Str := none
  authorName : Option Str := none
  linkHref : Option Str := none
  published : Option Str := none
deriving DecidableEq, Repr

/-- The per-subreddit HTTP world of `UnifiedScraper.scrape_reddit`: one
outcome per strategy endpoint, plus the comments endpoint keyed by post id.
For the Arctic and JSON strategies the body is the post list the code
extracts (`data.get('data', [])` resp. `data['data']['children'][*]['data']`);
a JSON decode error inside a strategy's `try` is its `exn` case.  For RSS
the body is the list of parsed Atom entries. -/
structure RedditEnv where
  arctic : Outcome (List RawPost)
  arcticComments : Str → Outcome (List ArcComment)
  rss : Outcome (List RssEntry)
  json : Outcome (List RawPost)

/-- Options dict of `scrape_reddit` (`options.get('fetch_comments', False)`). -/
structure ROptions where
  fetch_comments : Bool := false
deriving DecidableEq, Repr

/-- A comment record built by the Arctic Shift comment fetcher. -/
structure CommentOut where
  author : Str
  body : Str
  score : Int
  created_at : Str
  permalink : Str
deriving DecidableEq, Repr

/-- The value under the `comments` key of an Arctic post record: the raw
`num_comments` count, overwritten by the fetched list when comment fetching
succeeds. -/
inductive CommentsVal where
  | numOnly (n : Int)
  | fetched (l : List CommentOut)
deriving DecidableEq, Repr

/-- A Reddit post record emitted by `UnifiedScraper.scrape_reddit` (the
fields shared by the three strategies; `post_id` and the comment-fetch
fields exist only on Arctic records and are `none`/absent elsewhere). -/
structure RPostOut where
  platform : Str
  subreddit : Str
  title : Str
  text : Str
  author : Str
  score : Int
  comments : CommentsVal
  url : Option Str
  created_at : Str
  upvote_ratio : Int
  awards : Int
  flair : Option Str
  is_video : Bool
  thumbnail : Option Str
  strategy_used : Str
  post_id : Option Str
  comments_fetched : Option Nat
  comment_fetch_error : Option Str
deriving DecidableEq, Repr

/-- A record appended to `results` by `UnifiedScraper.scrape_reddit`. -/
inductive RRes where
  | post (p : RPostOut)
  | allFail (subreddit : Str) (error : Str) (note : Str)
      (available_methods : List Str) (recommendation : Str)
  | unexpected (subreddit : Str) (error : Str)
deriving DecidableEq, Repr

/-- The strategy provenance tag of a result record, when it has one. -/
def RRes.tag : RRes → Option Str
  | .post p => some p.strategy_used
  | .allFail _ _ _ _ _ => none
  | .unexpected _ _ => none

/-- The Arctic Shift comment fetch for one post (the inner `try` of
strategy 1): on HTTP 200 replace the `comments` count with the filtered
comment list and set `comments_fetched`; on non-200 change nothing; on an
exception set `comment_fetch_error`. -/
def arcticFetchComments (env : RedditEnv) (pid : Str) (base : RPostOut) : RPostOut :=
  match env.arcticComments pid with
  | .exn m => { base with comment_fetch_error := some m }
  | .resp status cdata =>
    if status = 200 then
      let commentList := (cdata.filter (fun c =>
          c.body.getD [] ≠ [] ∧ c.body ≠ some (str "[removed]") ∧
          c.body ≠ some (str "[deleted]"))).map (fun c =>
        { author := c.author.getD (str "Unknown")
          body := c.body.getD []
          score := c.score.getD 0
          created_at :=
            if c.created_utc.getD 0 ≠ 0 then isoFromEpoch (c.created_utc.getD 0) else []
          permalink := str "https://reddit.com" ++ c.permalink.getD [] : CommentOut })
      { base with comments := .fetched commentList,
                  comments_fetched := some commentList.length }
    else base

/-- The post record built by strategy 1 (Arctic Shift) for one raw post. -/
def arcticPostOut (env : RedditEnv) (opts : ROptions) (subreddit : Str)
    (post : RawPost) : RPostOut :=
  let base : RPostOut :=
    { platform := str "reddit"
      subreddit := str "r/" ++ subreddit
      title := post.title.getD []
      text := if post.selftext.getD [] ≠ [] then (post.selftext.getD []).take 500 else []
      author := post.author.getD (str "Unknown")
      score := post.score.getD 0
      comments := .numOnly (post.num_comments.getD 0)
      url := some (str "https://reddit.com" ++ post.permalink.getD [])
      created_at :=
        if post.created_utc.getD 0 ≠ 0 then isoFromEpoch (post.created_utc.getD 0) else []
      upvote_ratio := post.upvote_ratio.getD 0
      awards := post.total_awards_received.getD 0
      flair := post.link_flair_text
      is_video := post.is_video.getD false
      thumbnail := thumbOf post.thumbnail
      strategy_used := str "arctic_shift_api"
      post_id := post.id
      comments_fetched := none
      comment_fetch_error := none }
  if opts.fetch_comments then
    match post.id with
    | some pid => if pid ≠ [] then arcticFetchComments env pid base else base
    | none => base
  else base

/-- Strategy 1 (Arctic Shift API): `some results` exactly when the request
returns HTTP 200 with a non-empty post list (the `success = True` branch). -/
def arcticStep (env : RedditEnv) (opts : ROptions) (subreddit : Str) :
    Option (List RRes) :=
  match env.arctic with
  | .exn _ => none
  | .resp status posts =>
    if status = 200 ∧ posts ≠ [] then
      some ((posts.take 10).map (fun p => RRes.post (arcticPostOut env opts subreddit p)))
    else none

/-- The post record built by strategy 2 (RSS feed) for one Atom entry. -/
def rssPostOut (subreddit : Str) (e : RssEntry) : RPostOut :=
  { platform := str "reddit"
    subreddit := str "r/" ++ subreddit
    title := e.title.getD (str "No title")
    text := []
    author := match e.authorName with
      | some a => replaceAll (str "/u/") [] a
      | none => str "Unknown"
    score := 0
    comments := .numOnly 0
    url := e.linkHref
    created_at := e.published.getD []
    upvote_ratio := 0
    awards := 0
    flair := none
    is_video := false
    thumbnail := none
    strategy_used := str "rss_feed"
    post_id := none
    comments_fetched := none
    comment_fetch_error := none }

/-- Strategy 2 (RSS feed): succeeds on HTTP 200 with at least one parsed
Atom entry (an XML parse error is the `exn` case of the environment). -/
def rssStep (env : RedditEnv) (subreddit : Str) : Option (List RRes) :=
  match env.rss with
  | .exn _ => none
  | .resp status entries =>
    if status = 200 ∧ entries ≠ [] then
      some ((entries.take 10).map (fun e => RRes.post (rssPostOut subreddit e)))
    else none

/-- The post record built by strategy 3 (old.reddit JSON) for one raw post. -/
def jsonPostOut (subreddit : Str) (post : RawPost) : RPostOut :=
  { platform := str "reddit"
    subreddit := str "r/" ++ subreddit
    title := post.title.getD []
    text := (post.selftext.getD []).take 500
    author := post.author.getD (str "Unknown")
    score := post.score.getD 0
    comments := .numOnly (post.num_comments.getD 0)
    url := some (str "https://reddit.com" ++ post.permalink.getD [])
    created_at :=
      if post.created_utc.getD 0 ≠ 0 then isoFromEpoch (post.created_utc.getD 0) else []
    upvote_ratio := post.upvote_ratio.getD 0
    awards := post.total_awards_received.getD 0
    flair := post.link_flair_text
    is_video := post.is_video.getD false
    thumbnail := thumbOf post.thumbnail
    strategy_used := str "json_api"
    post_id := none
    comments_fetched := none
    comment_fetch_error := none }

/-- Strategy 3 (old.reddit `hot.json`): succeeds on HTTP 200 with a
non-empty `children` list. -/
def jsonStep (env : RedditEnv) (subreddit : Str) : Option (List RRes) :=
  match env.json with
  | .exn _ => none
  | .resp status posts =>
    if status = 200 ∧ posts ≠ [] then
      some ((posts.take 10).map (fun p => RRes.post (jsonPostOut subreddit p)))
    else none

/-- Subreddit name cleaning: `source.strip().replace('r/', '').replace('/', '')`. -/
def cleanSubreddit (source : Str) : Str :=
  replaceAll (str "/") [] (replaceAll (str "r/") [] (pyStrip source))

/-- The three Reddit strategy identifiers in declared order. -/
def redditNames : List Str := [str "arctic_shift_api", str "rss_feed", str "json_api"]

/-- Embedding of the per-source body of `UnifiedScraper.scrape_reddit`:
try the three strategies in order behind the `success` flag, stop at the
first that succeeds, and append the all-failed error record when none does.
The second component instruments which strategies issued their request. -/
def scrapeRedditSource (envs : Str → RedditEnv) (opts : ROptions) (source : Str) :
    List RRes × List Str :=
  let subreddit := cleanSubreddit source
  let env := envs subreddit
  match arcticStep env opts subreddit with
  | some rs => (rs, redditNames.take 1)
  | none =>
    match rssStep env subreddit with
    | some rs => (rs, redditNames.take 2)
    | none =>
      match jsonStep env subreddit with
      | some rs => (rs, redditNames)
      | none =>
        ([RRes.allFail (str "r/" ++ subreddit)
            (str "All Reddit access methods failed")
            (str "Try again later or check subreddit name")
            [str "Arctic Shift API", str "RSS Feed", str "JSON API"]
            (str "Arctic Shift API is most reliable for serverless environments")],
         redditNames)

/-- A value of the request's `sources` array: a Python string, or any other
value, which raises at `source.strip()` with the given message and is caught
by the per-source handler. -/
inductive PyVal where
  | pstr (s : Str)
  | other (rep : Str) (excMsg : Str)

/-- Embedding of `UnifiedScraper.scrape_reddit` over a batch of sources:
each source contributes its own records; a source whose processing raises is
captured as an `unexpected` error record in place. -/
def scrapeReddit (envs : Str → RedditEnv) (opts : ROptions) (sources : List PyVal) :
    List RRes :=
  match sources with
  | [] => []
  | PyVal.pstr s :: rest =>
    (scrapeRedditSource envs opts s).1 ++ scrapeReddit envs opts rest
  | PyVal.other rep excMsg :: rest =>
    RRes.unexpected rep (str "Unexpected error: " ++ excMsg) ::
      scrapeReddit envs opts rest

/-- Per-strategy success of the Reddit chain, read off the environment. -/
def arcticOkB (env : RedditEnv) : Bool :=
  match env.arctic with
  | .resp status posts => status == 200 && !posts.isEmpty
  | .exn _ => false

/-- RSS strategy success, read off the environment. -/
def rssOkB (env : RedditEnv) : Bool :=
  match env.rss with
  | .resp status entries => status == 200 && !entries.isEmpty
  | .exn _ => false

/-- JSON strategy success, read off the environment. -/
def jsonOkB (env : RedditEnv) : Bool :=
  match env.json with
  | .resp status posts => status == 200 && !posts.isEmpty
  | .exn _ => false

/-- The success booleans of the Reddit strategies in declared order. -/
def redditOks (env : RedditEnv) : List Bool := [arcticOkB env, rssOkB env, jsonOkB env]

/-- The declared-order attempt list predicted from per-strategy success
flags: everything up to and including the first success, or the whole list
when none succeeds. -/
def prefixUpTo (oks : List Bool) (names : List Str) : List Str :=
  match oks.findIdx? (fun b => b) with
  | some k => names.take (k + 1)
  | none => names

/-- The provenance tag every produced record must carry: the name of the
first succeeding strategy, `none` when all fail. -/
def firstTag (oks : List Bool) (names : List Str) : Option Str :=
  (oks.findIdx? (fun b => b)).bind (fun k => names[k]?)

/-! ## The `UnifiedScraper.scrape_twitter` fallback chain (username branch) -/

/-- A tweet dict returned by one of the Twitter helper scrapers.  An `error`
key present marks the dict as an error entry. -/
structure Tweet where
  text : Option Str := none
  created_at : Option Str := none
  likes : Option Int := none
  retweets : Option Int := none
  replies : Option Int := none
  url : Option Str := none
  permalink : Option Str := none
  media : Option (List Str) := none
  is_retweet : Option Bool := none
  error : Option Str := none
deriving DecidableEq, Repr

/-- The world of one `scrape_twitter` username lookup: which helper scrapers
were importable (`self.enhanced_twitter` etc. are non-`None`), and what each
call returns or raises. -/
structure TwitterEnv where
  enhancedAvailable : Bool
  xcancelAvailable : Bool
  basicAvailable : Bool
  enhanced : CallOut (List Tweet)
  xcancel : CallOut (List Tweet)
  basic : CallOut (List Tweet)

/-- A record appended to `results` by the username branch of
`scrape_twitter`; the constructor matches the dict shape of the strategy
that produced it. -/
inductive TwRes where
  | enhanced (username text created_at : Str) (likes retweets replies : Int)
      (url : Str) (media : List Str)
  | xcancel (username text created_at : Str) (likes retweets replies : Int)
      (url : Str) (media : List Str) (is_retweet : Bool)
  | basic (username text created_at : Str) (likes retweets : Int) (url : Str)
  | failure (username : Str) (error : Str)
deriving DecidableEq, Repr

/-- The `source` provenance field of a Twitter result record, if any. -/
def TwRes.tag : TwRes → Option Str
  | .enhanced _ _ _ _ _ _ _ _ => some (str "syndication_enhanced")
  | .xcancel _ _ _ _ _ _ _ _ _ => some (str "xcancel_complete_timeline")
  | .basic _ _ _ _ _ _ => some (str "syndication_api_popular")
  | .failure _ _ => none

/-- The record built for one tweet by strategy 1 (enhanced syndication). -/
def enhancedOut (username : Str) (t : Tweet) : TwRes :=
  .enhanced ('@' :: username) (t.text.getD []) (t.created_at.getD [])
    (t.likes.getD 0) (t.retweets.getD 0) (t.replies.getD 0) (t.url.getD [])
    (t.media.getD [])

/-- The record built for one tweet by strategy 2 (xcancel). -/
def xcancelOut (username : Str) (t : Tweet) : TwRes :=
  .xcancel ('@' :: username) (t.text.getD []) (t.created_at.getD [])
    (t.likes.getD 0) (t.retweets.getD 0) (t.replies.getD 0) (t.url.getD [])
    (t.media.getD []) (t.is_retweet.getD false)

/-- The record built for one tweet by strategy 3 (basic syndication); note
the `url` comes from the tweet's `permalink` key here. -/
def basicOut (username : Str) (t : Tweet) : TwRes :=
  .basic ('@' :: username) (t.text.getD []) (t.created_at.getD [])
    (t.likes.getD 0) (t.retweets.getD 0) (t.permalink.getD [])

/-- The three Twitter strategy identifiers in declared order (the `source`
tag each strategy writes). -/
def twitterNames : List Str :=
  [str "syndication_enhanced", str "xcancel_complete_timeline", str "syndication_api_popular"]

/-- Strategy 1 of `scrape_twitter` (enhanced syndication): skipped when the
helper scraper is unavailable; succeeds on a returned non-empty tweet list
containing no `error`-keyed entry. -/
def twEnhancedStep (env : TwitterEnv) (username : Str) : Option (List TwRes) :=
  if env.enhancedAvailable then
    match env.enhanced with
    | .ret ts =>
      if ts ≠ [] ∧ ¬ts.any (fun t => t.error.isSome) then
        some (ts.map (enhancedOut username))
      else none
    | .exn _ => none
  else none

/-- Strategy 2 of `scrape_twitter` (xcancel), same success criterion. -/
def twXcancelStep (env : TwitterEnv) (username : Str) : Option (List TwRes) :=
  if env.xcancelAvailable then
    match env.xcancel with
    | .ret ts =>
      if ts ≠ [] ∧ ¬ts.any (fun t => t.error.isSome) then
        some (ts.map (xcancelOut username))
      else none
    | .exn _ => none
  else none

/-- Strategy 3 of `scrape_twitter` (basic syndication): appends whatever
list it got; `tweets_found` is set exactly when the list is non-empty. -/
def twBasicStep (env : TwitterEnv) (username : Str) : Option (List TwRes) :=
  if env.basicAvailable then
    match env.basic with
    | .ret ts => if ts ≠ [] then some (ts.map (basicOut username)) else none
    | .exn _ => none
  else none

/-- Embedding of the regular-username branch of `UnifiedScraper.scrape_twitter`
for one source: the three strategies behind the `tweets_found` flag, in
declared order, stopping at the first success; the error record when all
fail.  The second component instruments which strategy calls were made. -/
def scrapeTwitterTimeline (env : TwitterEnv) (source : Str) : List TwRes × List Str :=
  let username := replaceAll (str "@") [] (pyStrip source)
  let att1 := if env.enhancedAvailable then [str "syndication_enhanced"] else []
  match twEnhancedStep env username with
  | some rs => (rs, att1)
  | none =>
    let att2 := att1 ++ (if env.xcancelAvailable then [str "xcancel_complete_timeline"] else [])
    match twXcancelStep env username with
    | some rs => (rs, att2)
    | none =>
      let att3 := att2 ++ (if env.basicAvailable then [str "syndication_api_popular"] else [])
      match twBasicStep env username with
      | some rs => (rs, att3)
      | none =>
        ([.failure ('@' :: username)
            (str "Could not fetch tweets from any available source")], att3)

/-- Strategy 1 success, read off the environment. -/
def enhancedOkB (env : TwitterEnv) : Bool :=
  match env.enhanced with
  | .ret ts => !ts.isEmpty && !ts.any (fun t => t.error.isSome)
  | .exn _ => false

/-- Strategy 2 success, read off the environment. -/
def xcancelOkB (env : TwitterEnv) : Bool :=
  match env.xcancel with
  | .ret ts => !ts.isEmpty && !ts.any (fun t => t.error.isSome)
  | .exn _ => false

/-- Strategy 3 success, read off the environment. -/
def basicOkB (env : TwitterEnv) : Bool :=
  match env.basic with
  | .ret ts => !ts.isEmpty
  | .exn _ => false

/-- The success booleans of the Twitter strategies in declared order. -/
def twitterOks (env : TwitterEnv) : List Bool :=
  [enhancedOkB env, xcancelOkB env, basicOkB env]

/-! ## `UnifiedScraper.scrape_instagram` (per-source error capture) -/

/-- A post node of an Instagram profile timeline, as the code reads it. -/
structure IgNode where
  id : Option Str := none
  shortcode : Option Str := none
  taken_at_timestamp : Option Nat := none
  liked_count : Option Int := none
  comment_count : Option Int := none
  is_video : Option Bool := none
  thumbnail_src : Option Str := none
  display_url : Option Str := none
  dim_width : Option Int := none
  dim_height : Option Int := none
  caption_texts : List Str := []
deriving DecidableEq, Repr

/-- The user object of the web-profile-info response. -/
structure IgUser where
  full_name : Option Str := none
  biography : Option Str := none
  followers : Option Int := none
  following : Option Int := none
  posts_count : Option Int := none
  is_verified : Option Bool := none
  is_private : Option Bool := none
  profile_pic_url_hd : Option Str := none
  external_url : Option Str := none
  edges : List IgNode := []
deriving DecidableEq, Repr

/-- A post record of an Instagram profile result. -/
structure IgPost where
  id : Option Str
  shortcode : Option Str
  url : Str
  caption : Str
  timestamp : Option Nat
  created_at : Str
  likes : Int
  comments : Int
  is_video : Bool
  thumbnail : Option Str
  display_url : Option Str
  dim_width : Int
  dim_height : Int
deriving DecidableEq, Repr

/-- A record appended to `results` by `scrape_instagram` for one source. -/
inductive IgRes where
  | profile (username full_name bio : Str) (followers following posts_count : Int)
      (is_verified is_private : Bool) (profile_pic external_url : Option Str)
      (posts : List IgPost)
  | notFound (username : Str) (error : Str)
  | httpError (username : Str) (error : Str)
  | exnError (username : Str) (error : Str)
deriving DecidableEq, Repr

/-- Python f-string interpolation of an optional string (`None` prints as
`None`). -/
def pyFmtOpt (o : Option Str) : Str := o.getD (str "None")

/-- The post record built from one timeline edge node. -/
def igPostOut (node : IgNode) : IgPost :=
  { id := node.id
    shortcode := node.shortcode
    url := str "https://www.instagram.com/p/" ++ pyFmtOpt node.shortcode ++ str "/"
    caption := match node.caption_texts with
      | t :: _ => t.take 200
      | [] => []
    timestamp := node.taken_at_timestamp
    created_at :=
      if node.taken_at_timestamp.getD 0 ≠ 0 then
        isoFromEpoch (node.taken_at_timestamp.getD 0)
      else []
    likes := node.liked_count.getD 0
    comments := node.comment_count.getD 0
    is_video := node.is_video.getD false
    thumbnail := node.thumbnail_src
    display_url := node.display_url
    dim_width := node.dim_width.getD 0
    dim_height := node.dim_height.getD 0 }

/-- Decimal rendering of a natural number. -/
def natToStr (n : Nat) : Str := Nat.toDigits 10 n

/-- Embedding of the per-source body of `UnifiedScraper.scrape_instagram`:
exactly one record per source, with the per-source `try/except` capturing a
raised exception as an error record. -/
def scrapeInstagramOne (envs : Str → Outcome (Option IgUser)) (source : Str) : IgRes :=
  let username := replaceAll (str "@") [] (pyStrip source)
  match envs username with
  | .exn m => .exnError ('@' :: username) m
  | .resp status body =>
    if status = 200 then
      match body with
      | some user =>
        .profile ('@' :: username) (user.full_name.getD []) (user.biography.getD [])
          (user.followers.getD 0) (user.following.getD 0) (user.posts_count.getD 0)
          (user.is_verified.getD false) (user.is_private.getD false)
          user.profile_pic_url_hd user.external_url
          ((user.edges.take 8).map igPostOut)
      | none => .notFound ('@' :: username) (str "Profile not found or private")
    else
      .httpError ('@' :: username)
        (str "HTTP " ++ natToStr status ++ str ": Could not access profile")

/-- Embedding of `UnifiedScraper.scrape_instagram` over a batch of sources. -/
def scrapeInstagram (envs : Str → Outcome (Option IgUser)) (sources : List Str) :
    List IgRes :=
  match sources with
  | [] => []
  | s :: rest => scrapeInstagramOne envs s :: scrapeInstagram envs rest

/-! ## JSON export (`AdvancedScraper.export_results`, `format='json'`) -/

/-- A JSON value, the serializable view of a result record. -/
inductive JValue where
  | null
  | jbool (b : Bool)
  | jnum (n : Int)
  | jstr (s : Str)
  | jarr (xs : List JValue)
  | jobj (kvs : List (Str × JValue))

/-- Decimal rendering of an integer. -/
def intToStr (n : Int) : Str :=
  if n < 0 then '-' :: Nat.toDigits 10 n.natAbs else Nat.toDigits 10 n.toNat

/-- Minimal JSON string escaping (quote and backslash). -/
def escapeJson : Str → Str
  | [] => []
  | c :: rest => (if c = '"' || c = '\\' then ['\\', c] else [c]) ++ escapeJson rest

mutual

/-- Deterministic rendering of a JSON value, modelling
`json.dump(results, f, indent=2, ensure_ascii=False, default=str)`; the
exact whitespace of the Python pretty-printer is not load-bearing for any
claim, determinism of the rendering is. -/
def serJson : JValue → Str
  | .null => str "null"
  | .jbool true => str "true"
  | .jbool false => str "false"
  | .jnum n => intToStr n
  | .jstr s => '"' :: (escapeJson s ++ ['"'])
  | .jarr xs => '[' :: (serArr xs ++ [']'])
  | .jobj kvs => '\x7b' :: (serObj kvs ++ ['\x7d'])

/-- Rendering of a JSON array body. -/
def serArr : List JValue → Str
  | [] => []
  | [x] => serJson x
  | x :: y :: rest => serJson x ++ str ", " ++ serArr (y :: rest)

/-- Rendering of a JSON object body. -/
def serObj : List (Str × JValue) → Str
  | [] => []
  | [(k, v)] => '"' :: (escapeJson k ++ str "\": " ++ serJson v)
  | (k, v) :: p :: rest =>
    '"' :: (escapeJson k ++ str "\": " ++ serJson v ++ str ", " ++ serObj (p :: rest))

end

/-- Embedding of the JSON branch of `AdvancedScraper.export_results`: the
default filename carries the current `%Y%m%d_%H%M%S` timestamp; the file
content is the serialization of the result list.  Returns
`(filename, written content)`. -/
def exportResultsJson (results : List JValue) (filename : Option Str)
    (now : DateTime) : Str × Str :=
  let fname := match filename with
    | some f => f
    | none => str "scrape_results_" ++ fmtTimestamp now ++ str ".json"
  (fname, serJson (JValue.jarr results))

/-! ## Test fixtures for witnesses, counterexamples and the mocked payload -/

/-- Number of `more` markers at the top level of a listing plus inside all
reply listings (spec-side, for stating the C4 counterexample). -/
def countMoreMarkers (items : List RNode) : Nat :=
  match items with
  | [] => 0
  | RNode.t1 _ (some children) :: rest => countMoreMarkers children + countMoreMarkers rest
  | RNode.t1 _ none :: rest => countMoreMarkers rest
  | RNode.more _ _ _ :: rest => 1 + countMoreMarkers rest

/-- A comment node for the depth-3 witness tree. -/
def wComment (id : String) (reps : Option (List RNode)) : RNode :=
  RNode.t1
    { id := some (str id), author := some (str "u"), body := some (str "hello"),
      score := some 1, created_utc := some 86400, edited := false,
      is_submitter := false, distinguished := none,
      total_awards_received := some 0, controversiality := some 0,
      permalink := some (str "/r/p/c/1"), parent_id := some (str "t3_root") }
    reps

/-- A depth-3 comment tree with five comments and no `more` markers. -/
def wTree : List RNode :=
  [wComment "a" (some [wComment "b" (some [wComment "c" none]), wComment "d" none]),
   wComment "e" none]

/-- A listing with one nested qualifying `more` marker and one top-level
marker (for the C4 witness). -/
def wTreeMores : List RNode :=
  [wComment "a" (some [RNode.more (some 5) [str "x", str "y"] (some (str "t1_a"))]),
   RNode.more (some 3) [str "z"] (some (str "t3_r"))]

/-- One raw post of the mocked Reddit `hot` payload, stamped `t`. -/
def hotPost (t : Nat) : RawPost :=
  { id := some (natToStr t), author := some (str "alice"),
    title := some (str "a post"), selftext := some (str "body text"),
    permalink := some (str "/r/test/comments/x/"), created_utc := some t,
    subreddit := some (str "test"), score := some 5, num_comments := some 2,
    upvote_ratio := some 0, media := false, thumbnail := none,
    link_flair_text := none, total_awards_received := some 0,
    is_video := some false }

/-- The creation timestamps of the ten mocked posts. -/
def hotEpochs : List Nat :=
  [86400, 946684800, 1000000000, 1111111111, 1234567890,
   1500000000, 1600000000, 1609459200, 1700000000, 2000000000]

/-- The mocked Reddit `hot` JSON payload: ten posts. -/
def hotPayload : List RawPost := hotEpochs.map hotPost

/-- The ISO8601 strings the ten `created_utc` stamps must map to (UTC). -/
def hotExpectedIso : List Str :=
  [str "1970-01-02T00:00:00", str "2000-01-01T00:00:00",
   str "2001-09-09T01:46:40", str "2005-03-18T01:58:31",
   str "2009-02-13T23:31:30", str "2017-07-14T02:40:00",
   str "2020-09-13T12:26:40", str "2021-01-01T00:00:00",
   str "2023-11-14T22:13:20", str "2033-05-18T03:33:20"]

/-- The `platform` field of a `scrape_reddit` result record, when present. -/
def RRes.platformOf : RRes → Option Str
  | .post p => some p.platform
  | .allFail _ _ _ _ _ => some (str "reddit")
  | .unexpected _ _ => some (str "reddit")

/-- The `created_at` field of a `scrape_reddit` result record, when present. -/
def RRes.createdAtOf : RRes → Option Str
  | .post p => some p.created_at
  | .allFail _ _ _ _ _ => none
  | .unexpected _ _ => none

/-- A Reddit environment where every strategy fails; the failure reasons of
the three strategies are the arguments. -/
def envAllFail (mArctic mRss : Str) (jsonStatus : Nat) : RedditEnv :=
  { arctic := .exn mArctic
    arcticComments := fun _ => .exn (str "unused")
    rss := .exn mRss
    json := .resp jsonStatus [] }

/-- A Twitter environment where every strategy fails (all scrapers
available; distinct failure shapes per strategy). -/
def twEnvAllFail (mEnh : Str) : TwitterEnv :=
  { enhancedAvailable := true, xcancelAvailable := true, basicAvailable := true
    enhanced := .exn mEnh
    xcancel := .ret [{ error := some (str "rate limited") }]
    basic := .ret [] }

/-- A Reddit environment whose first strategy fails and second succeeds
(for the fallback-order witness). -/
def envRssWins : RedditEnv :=
  { arctic := .resp 500 []
    arcticComments := fun _ => .exn (str "unused")
    rss := .resp 200 [{ title := some (str "T"), authorName := some (str "/u/bob"),
                        linkHref := some (str "https://x"), published := some (str "2024-01-01") }]
    json := .exn (str "not reached") }

/-- A Twitter environment whose first strategy fails and second succeeds
(for the fallback-order witness). -/
def twEnvXcWins : TwitterEnv :=
  { enhancedAvailable := true, xcancelAvailable := true, basicAvailable := true
    enhanced := .ret [{ error := some (str "protected account") }]
    xcancel := .ret [{ text := some (str "hi"), likes := some 3 }]
    basic := .ret [{ text := some (str "unused") }] }

/-- An Instagram environment failing on the user `bad` (for the C7 witness). -/
def igEnvWitness : Str → Outcome (Option IgUser) :=
  fun u =>
    if u = str "bad" then .exn (str "ConnectionError")
    else .resp 200 (some { full_name := some (str "Ok User") })

/-- The filter dict `{keywords: ["AI"]}`. -/
def kwAIFilters : FilterSpec := { keywords := some [str "AI"] }

/-- The filter dict `{exclude_keywords: ["AI"]}`. -/
def exclAIFilters : FilterSpec := { exclude_keywords := some [str "AI"] }

/-- The environment of the C6 end-to-end check on the `scrape.py` chain:
Arctic raises, RSS is denied, the old.reddit JSON strategy returns the
mocked ten-post payload. -/
def c6Env : RedditEnv :=
  { arctic := .exn (str "blocked")
    arcticComments := fun _ => .exn (str "unused")
    rss := .resp 403 []
    json := .resp 200 hotPayload }

/-! ## Lemmas about the comment flattener -/

theorem heightL_pos (items : List RNode) (h : items ≠ []) : 1 ≤ heightL items := by
  match items with
  | RNode.t1 _ (some children) :: rest =>
    simp only [heightL]
    omega
  | RNode.t1 _ none :: rest =>
    simp only [heightL]
    omega
  | RNode.more _ _ _ :: rest =>
    simp only [heightL]
    omega

theorem parse_eq_specFlatten (items : List RNode) (depth m : Nat) :
    noMores items = true → depth + heightL items ≤ m + 1 →
    parseCommentsRec items depth m = specFlatten items depth := by
  induction items, depth, m using parseCommentsRec.induct with
  | case1 depth m =>
    intro _ _
    simp [parseCommentsRec, specFlatten]
  | case2 depth m data replies rest ihc ihr =>
    intro hnm hht
    cases replies with
    | some children =>
      simp only [noMores, Bool.and_eq_true] at hnm
      simp only [heightL] at hht
      have hc1 : 1 + heightL children ≤ max (1 + heightL children) (heightL rest) :=
        Nat.le_max_left _ _
      have hc2 : heightL rest ≤ max (1 + heightL children) (heightL rest) :=
        Nat.le_max_right _ _
      by_cases hdm : depth < m
      · simp only [parseCommentsRec, specFlatten, if_pos hdm]
        rw [ihc hnm.1 (by omega), ihr hnm.2 (by omega)]
      · have hc0 : heightL children = 0 := by omega
        have hcnil : children = [] := by
          by_contra hne
          have := heightL_pos children hne
          omega
        subst hcnil
        simp only [parseCommentsRec, specFlatten, if_neg hdm]
        rw [ihr hnm.2 (by omega)]
    | none =>
      simp only [noMores] at hnm
      simp only [heightL] at hht
      have hc2 : heightL rest ≤ max 1 (heightL rest) := Nat.le_max_right _ _
      simp only [parseCommentsRec, specFlatten]
      rw [ihr hnm (by omega)]
      by_cases hdm : depth < m <;> simp [hdm]
  | case3 depth m count children parent_id rest ihr =>
    intro hnm
    simp [noMores] at hnm

theorem specFlatten_length (items : List RNode) (level : Nat) :
    (specFlatten items level).length = countComments items := by
  induction items, level using specFlatten.induct with
  | case1 level => simp [specFlatten, countComments]
  | case2 level data children rest ihc ihr =>
    simp [specFlatten, countComments, ihc, ihr]
    omega
  | case3 level data rest ihr =>
    simp [specFlatten, countComments, ihr]
    omega
  | case4 level c ch pid rest ihr =>
    simp [specFlatten, countComments, ihr]

theorem mem_specFlatten_depth (items : List RNode) (level : Nat) :
    ∀ e ∈ specFlatten items level, e.depthOf < level + heightL items := by
  induction items, level using specFlatten.induct with
  | case1 level => simp [specFlatten]
  | case2 level data children rest ihc ihr =>
    intro e he
    simp only [specFlatten, List.mem_cons, List.mem_append] at he
    simp only [heightL]
    have hc1 : 1 + heightL children ≤ max (1 + heightL children) (heightL rest) :=
      Nat.le_max_left _ _
    have hc2 : heightL rest ≤ max (1 + heightL children) (heightL rest) :=
      Nat.le_max_right _ _
    rcases he with he | he | he
    · subst he
      simp [flatOfComment, Flat.depthOf]
    · have := ihc e he
      omega
    · have := ihr e he
      omega
  | case3 level data rest ihr =>
    intro e he
    simp only [specFlatten, List.mem_cons] at he
    simp only [heightL]
    have hc2 : heightL rest ≤ max 1 (heightL rest) := Nat.le_max_right _ _
    rcases he with he | he
    · subst he
      simp [flatOfComment, Flat.depthOf]
    · have := ihr e he
      omega
  | case4 level c ch pid rest ihr =>
    intro e he
    simp only [specFlatten] at he
    simp only [heightL]
    have := ihr e he
    have hc2 : heightL rest ≤ max 1 (heightL rest) := Nat.le_max_right _ _
    omega

theorem mem_parse_depth_bounds (items : List RNode) (d m : Nat) :
    d ≤ m → ∀ e ∈ parseCommentsRec items d m, d ≤ e.depthOf ∧ e.depthOf ≤ m := by
  induction items, d, m using parseCommentsRec.induct with
  | case1 d m => simp [parseCommentsRec]
  | case2 d m data replies rest ihc ihr =>
    intro hdm e he
    cases replies with
    | some children =>
      simp only [parseCommentsRec, List.mem_cons, List.mem_append] at he
      rcases he with he | he | he
      · subst he
        simp [flatOfComment, Flat.depthOf]
        omega
      · by_cases hlt : d < m
        · rw [if_pos hlt] at he
          have := ihc (by omega) e he
          omega
        · rw [if_neg hlt] at he
          simp at he
      · exact ihr hdm e he
    | none =>
      simp only [parseCommentsRec, ite_self, List.nil_append, List.mem_cons] at he
      rcases he with he | he
      · subst he
        simp [flatOfComment, Flat.depthOf]
        omega
      · exact ihr hdm e he
  | case3 d m count children parent_id rest ihr =>
    intro hdm e he
    simp only [parseCommentsRec, List.mem_append] at he
    rcases he with he | he
    · by_cases hq : children ≠ [] ∧ count.getD 0 > 0
      · rw [if_pos hq] at he
        simp only [List.mem_singleton] at he
        subst he
        simp [Flat.depthOf]
        omega
      · rw [if_neg hq] at he
        simp at he
    · exact ihr hdm e he

theorem parse_filter_mores (items : List RNode) (d m : Nat) :
    (parseCommentsRec items d m).filter Flat.isMoreStub = collectMores items d m := by
  induction items, d, m using parseCommentsRec.induct with
  | case1 d m => simp [parseCommentsRec, collectMores]
  | case2 d m data replies rest ihc ihr =>
    cases replies with
    | some children =>
      have ihc2 : List.filter Flat.isMoreStub (parseCommentsRec children (d + 1) m) =
          collectMores children (d + 1) m := ihc
      simp only [parseCommentsRec, collectMores, List.filter_cons, List.filter_append]
      have hflat : Flat.isMoreStub (flatOfComment data d) = false := rfl
      rw [hflat]
      simp only [Bool.false_eq_true, if_false]
      by_cases hlt : d < m
      · simp [hlt, ihc2, ihr]
      · simp [hlt, ihr]
    | none =>
      simp only [parseCommentsRec, collectMores, ite_self, List.nil_append,
        List.filter_cons]
      have hflat : Flat.isMoreStub (flatOfComment data d) = false := rfl
      rw [hflat]
      simp [ihr]
  | case3 d m count children parent_id rest ihr =>
    simp only [parseCommentsRec, collectMores, List.filter_append]
    by_cases hq : children ≠ [] ∧ count.getD 0 > 0
    · rw [if_pos hq]
      rw [ihr]
      rfl
    · rw [if_neg hq]
      rw [ihr]
      rfl

/-- C3: on a depth-3 tree of N comments with no `more` markers, the
flattener (at its default `max_depth = 10`) returns exactly N flat entries,
the flat list is exactly the preorder spec flattening in which each entry's
`depth` is its true nesting level, and every emitted depth is 0, 1 or 2. -/
theorem c3_flattener_depth3 (items : List RNode)
    (hNoMore : noMores items = true) (hHeight : heightL items ≤ 3) :
    (parseCommentsRec items 0 10).length = countComments items ∧
    parseCommentsRec items 0 10 = specFlatten items 0 ∧
    ∀ e ∈ parseCommentsRec items 0 10, e.depthOf ≤ 2 := by
  have heq : parseCommentsRec items 0 10 = specFlatten items 0 :=
    parse_eq_specFlatten items 0 10 hNoMore (by omega)
  refine ⟨?_, heq, ?_⟩
  · rw [heq, specFlatten_length]
  · intro e he
    rw [heq] at he
    have := mem_specFlatten_depth items 0 e he
    omega

/-- Witness for C3 on a concrete depth-3 tree of five comments. -/
theorem c3_flattener_depth3_witness :
    (noMores wTree = true ∧ heightL wTree ≤ 3) ∧
    ((parseCommentsRec wTree 0 10).length = countComments wTree ∧
     parseCommentsRec wTree 0 10 = specFlatten wTree 0 ∧
     ∀ e ∈ parseCommentsRec wTree 0 10, e.depthOf ≤ 2) :=
  ⟨⟨by simp [noMores, wTree, wComment], by simp [heightL, wTree, wComment]⟩,
   c3_flattener_depth3 wTree (by simp [noMores, wTree, wComment])
     (by simp [heightL, wTree, wComment])⟩

/-- C4 counterexample: a `more` continuation marker whose `count` is 0 (the
"continue this thread" shape) is present in the input but yields no
placeholder record in the output, so not every marker is represented. -/
theorem c4_more_counterexample :
    countMoreMarkers [RNode.more (some 0) [str "abc"] (some (str "t1_x"))] = 1 ∧
    parseCommentsRec [RNode.more (some 0) [str "abc"] (some (str "t1_x"))] 0 10 = [] := by
  constructor
  · simp [countMoreMarkers]
  · simp [parseCommentsRec]

/-- C4 (amended): the flattener truncates at the configured max depth (every
emitted entry's depth lies between the starting depth and the cutoff), and
the placeholder records in the output are exactly one per reachable `more`
marker that has a non-empty `children` list and a positive `count` (markers
are never recursed into; markers failing that condition are dropped). -/
theorem c4_truncation_and_mores (items : List RNode) (d m : Nat) (h : d ≤ m) :
    (parseCommentsRec items d m).filter Flat.isMoreStub = collectMores items d m ∧
    ∀ e ∈ parseCommentsRec items d m, d ≤ e.depthOf ∧ e.depthOf ≤ m :=
  ⟨parse_filter_mores items d m, mem_parse_depth_bounds items d m h⟩

/-- Witness for C4 on a listing with one nested and one top-level marker. -/
theorem c4_truncation_and_mores_witness :
    (0 ≤ 10) ∧
    ((parseCommentsRec wTreeMores 0 10).filter Flat.isMoreStub =
       collectMores wTreeMores 0 10 ∧
     ∀ e ∈ parseCommentsRec wTreeMores 0 10, 0 ≤ e.depthOf ∧ e.depthOf ≤ 10) :=
  ⟨by omega, c4_truncation_and_mores wTreeMores 0 10 (by omega)⟩

/-! ## Substring lemmas and the keyword filter (C5) -/

theorem isPrefixOf_append_cons (p : Str) (c : Char) (hc : c ∉ p) :
    ∀ l r : Str, p.isPrefixOf (l ++ c :: r) = p.isPrefixOf l := by
  induction p with
  | nil => intro l r; simp [List.isPrefixOf]
  | cons d p' ih =>
    intro l r
    simp only [List.mem_cons, not_or] at hc
    have hdc : (d == c) = false := beq_eq_false_iff_ne.mpr (fun h => hc.1 h.symm)
    cases l with
    | nil => simp [List.isPrefixOf, hdc]
    | cons a l' =>
      have e1 : (d :: p').isPrefixOf ((a :: l') ++ c :: r)
          = ((d == a) && p'.isPrefixOf (l' ++ c :: r)) := rfl
      have e2 : (d :: p').isPrefixOf (a :: l')
          = ((d == a) && p'.isPrefixOf l') := rfl
      rw [e1, e2, ih hc.2 l' r]

theorem infixB_append_cons (p : Str) (c : Char) (hc : c ∉ p) :
    ∀ l r : Str, infixB p (l ++ c :: r) = (infixB p l || infixB p r) := by
  intro l
  induction l with
  | nil =>
    intro r
    cases p with
    | nil => simp [infixB, List.isPrefixOf]
    | cons d p' =>
      simp only [List.mem_cons, not_or] at hc
      have hdc : (d == c) = false := beq_eq_false_iff_ne.mpr (fun h => hc.1 h.symm)
      simp [infixB, List.isPrefixOf, hdc]
  | cons a l' ih =>
    intro r
    have e1 : infixB p ((a :: l') ++ c :: r)
        = (p.isPrefixOf ((a :: l') ++ c :: r) || infixB p (l' ++ c :: r)) := rfl
    have e2 : infixB p (a :: l') = (p.isPrefixOf (a :: l') || infixB p l') := rfl
    rw [e1, e2, isPrefixOf_append_cons p c hc (a :: l') r, ih r, Bool.or_assoc]

theorem searchableOf_eq (item : Item) :
    searchableOf item =
      pyLower item.title ++ ' ' :: (pyLower item.content ++ ' ' :: pyLower item.author) := by
  have hsp : Char.toLower ' ' = ' ' := by decide
  simp [searchableOf, pyLower, List.map_append, hsp]

theorem containsKeywords_single_eq_spec (item : Item) (kw : Str)
    (hc : ' ' ∉ pyLower kw) :
    containsKeywords item [kw] = specContainsKw kw item := by
  simp only [containsKeywords, List.any_cons, List.any_nil, Bool.or_false]
  rw [searchableOf_eq, infixB_append_cons _ _ hc, infixB_append_cons _ _ hc]
  simp [specContainsKw, Bool.or_assoc]

/-- C5: filtering with `{keywords: ["AI"]}` keeps exactly the posts whose
title, text or author contains "AI" case-insensitively, and filtering with
`{exclude_keywords: ["AI"]}` keeps exactly the complement. -/
theorem c5_keyword_filter_exact (posts : List Item) :
    applyFilters posts kwAIFilters =
      posts.filter (fun p => specContainsKw (str "AI") p) ∧
    applyFilters posts exclAIFilters =
      posts.filter (fun p => !specContainsKw (str "AI") p) := by
  have hne1 : kwAIFilters ≠ FilterSpec.empty := by decide
  have hne2 : exclAIFilters ≠ FilterSpec.empty := by decide
  have hsp : ' ' ∉ pyLower (str "AI") := by decide
  constructor
  · simp only [applyFilters, if_neg hne1, kwAIFilters]
    exact List.filter_congr (fun x _ => containsKeywords_single_eq_spec x (str "AI") hsp)
  · simp only [applyFilters, if_neg hne2, exclAIFilters]
    exact List.filter_congr (fun x _ => by
      rw [containsKeywords_single_eq_spec x (str "AI") hsp])

/-! ## Pipeline order and subsequence (C9, C10) -/

theorem applyFilters_eq_stages (data : List Item) (f : FilterSpec) :
    applyFilters data f =
      limitStage f (contentTypeStage f (excludeStage f (includeStage f
        (engagementStage f (dateStage f data))))) := by
  by_cases h : f = FilterSpec.empty
  · subst h
    simp [applyFilters, dateStage, engagementStage, includeStage, excludeStage,
      contentTypeStage, limitStage, FilterSpec.empty]
  · simp only [applyFilters, if_neg h, dateStage, engagementStage, includeStage,
      excludeStage, contentTypeStage, limitStage]

/-- C9: the pipeline is the pure function sequence date-range filter, then
engagement filter, then keyword include, then keyword exclude, then content
type, then the result limit; in particular the limit runs last, after every
predicate stage. -/
theorem c9_pipeline_stage_order (data : List Item) (f : FilterSpec) :
    applyFilters data f =
      limitStage f (contentTypeStage f (excludeStage f (includeStage f
        (engagementStage f (dateStage f data))))) :=
  applyFilters_eq_stages data f

theorem dateStage_sublist (f : FilterSpec) (l : List Item) :
    (dateStage f l).Sublist l := by
  unfold dateStage
  split
  · exact List.filter_sublist l
  · exact List.Sublist.refl l

theorem engagementStage_sublist (f : FilterSpec) (l : List Item) :
    (engagementStage f l).Sublist l := by
  unfold engagementStage
  split
  · exact List.filter_sublist l
  · exact List.Sublist.refl l

theorem includeStage_sublist (f : FilterSpec) (l : List Item) :
    (includeStage f l).Sublist l := by
  unfold includeStage
  split
  · exact List.filter_sublist l
  · exact List.Sublist.refl l

theorem excludeStage_sublist (f : FilterSpec) (l : List Item) :
    (excludeStage f l).Sublist l := by
  unfold excludeStage
  split
  · exact List.filter_sublist l
  · exact List.Sublist.refl l

theorem contentTypeStage_sublist (f : FilterSpec) (l : List Item) :
    (contentTypeStage f l).Sublist l := by
  unfold contentTypeStage
  split
  · exact List.filter_sublist l
  · exact List.Sublist.refl l

theorem limitStage_sublist (f : FilterSpec) (l : List Item) :
    (limitStage f l).Sublist l := by
  unfold limitStage
  split
  · unfold pySliceTo
    split
    · exact List.take_sublist _ l
    · exact List.take_sublist _ l
  · exact List.Sublist.refl l

/-- C10: for every record list and filter dict, the pipeline returns an
order-preserving subsequence of its input: each surviving record is one of
the input records, unmodified, in input order. -/
theorem c10_filters_sublist (data : List Item) (f : FilterSpec) :
    (applyFilters data f).Sublist data := by
  rw [applyFilters_eq_stages]
  exact ((limitStage_sublist f _).trans
    ((contentTypeStage_sublist f _).trans
      ((excludeStage_sublist f _).trans
        ((includeStage_sublist f _).trans
          ((engagementStage_sublist f _).trans (dateStage_sublist f data))))))

/-! ## JSON export determinism (C8) -/

/-- C8: the bytes written by the JSON export are determined entirely by the
result list: two calls at different times write identical content, and the
only inter-run variation is the `%Y%m%d_%H%M%S` timestamp embedded in the
default filename. -/
theorem c8_export_content_deterministic (results : List JValue)
    (t1 t2 : DateTime) (fn : Option Str) :
    (exportResultsJson results none t1).2 = (exportResultsJson results none t2).2 ∧
    (exportResultsJson results fn t1).2 = serJson (JValue.jarr results) ∧
    (exportResultsJson results none t1).1 =
      str "scrape_results_" ++ fmtTimestamp t1 ++ str ".json" :=
  ⟨rfl, rfl, rfl⟩

/-! ## Fallback-order lemmas (C1) -/

theorem arcticFetchComments_strategy (env : RedditEnv) (pid : Str) (base : RPostOut) :
    (arcticFetchComments env pid base).strategy_used = base.strategy_used := by
  unfold arcticFetchComments
  cases env.arcticComments pid with
  | exn m => rfl
  | resp status cdata =>
    by_cases h : status = 200 <;> simp [h]

theorem arcticPostOut_strategy (env : RedditEnv) (opts : ROptions) (sub : Str)
    (p : RawPost) :
    (arcticPostOut env opts sub p).strategy_used = str "arctic_shift_api" := by
  unfold arcticPostOut
  cases hfc : opts.fetch_comments
  · simp [hfc]
  · simp only [hfc, if_true]
    cases p.id with
    | none => rfl
    | some pid =>
      by_cases hp : pid ≠ []
      · simp [hp, arcticFetchComments_strategy]
      · simp [hp]

theorem arcticStep_none (env : RedditEnv) (opts : ROptions) (sub : Str) :
    arcticOkB env = false → arcticStep env opts sub = none := by
  unfold arcticStep arcticOkB
  cases harc : env.arctic with
  | exn m => intro _; rfl
  | resp status posts =>
    intro h
    by_cases h1 : status = 200
    · subst h1
      simp at h
      simp [h]
    · simp [h1]

theorem arcticStep_some_tags (env : RedditEnv) (opts : ROptions) (sub : Str) :
    arcticOkB env = true →
    ∃ rs, arcticStep env opts sub = some rs ∧
      ∀ r ∈ rs, RRes.tag r = some (str "arctic_shift_api") := by
  unfold arcticStep arcticOkB
  cases harc : env.arctic with
  | exn m => intro h; simp at h
  | resp status posts =>
    intro h
    simp only [Bool.and_eq_true, beq_iff_eq] at h
    have h2 : posts ≠ [] := by
      intro hnil
      rw [hnil] at h
      simp at h
    refine ⟨_, if_pos ⟨h.1, h2⟩, ?_⟩
    intro r hr
    simp only [List.mem_map] at hr
    obtain ⟨p, _, hre⟩ := hr
    rw [← hre]
    simp [RRes.tag, arcticPostOut_strategy]

theorem rssStep_none (env : RedditEnv) (sub : Str) :
    rssOkB env = false → rssStep env sub = none := by
  unfold rssStep rssOkB
  cases harc : env.rss with
  | exn m => intro _; rfl
  | resp status entries =>
    intro h
    by_cases h1 : status = 200
    · subst h1
      simp at h
      simp [h]
    · simp [h1]

theorem rssStep_some_tags (env : RedditEnv) (sub : Str) :
    rssOkB env = true →
    ∃ rs, rssStep env sub = some rs ∧
      ∀ r ∈ rs, RRes.tag r = some (str "rss_feed") := by
  unfold rssStep rssOkB
  cases harc : env.rss with
  | exn m => intro h; simp at h
  | resp status entries =>
    intro h
    simp only [Bool.and_eq_true, beq_iff_eq] at h
    have h2 : entries ≠ [] := by
      intro hnil
      rw [hnil] at h
      simp at h
    refine ⟨_, if_pos ⟨h.1, h2⟩, ?_⟩
    intro r hr
    simp only [List.mem_map] at hr
    obtain ⟨p, _, hre⟩ := hr
    rw [← hre]
    simp [RRes.tag, rssPostOut]

theorem jsonStep_none (env : RedditEnv) (sub : Str) :
    jsonOkB env = false → jsonStep env sub = none := by
  unfold jsonStep jsonOkB
  cases harc : env.json with
  | exn m => intro _; rfl
  | resp status posts =>
    intro h
    by_cases h1 : status = 200
    · subst h1
      simp at h
      simp [h]
    · simp [h1]

theorem jsonStep_some_tags (env : RedditEnv) (sub : Str) :
    jsonOkB env = true →
    ∃ rs, jsonStep env sub = some rs ∧
      ∀ r ∈ rs, RRes.tag r = some (str "json_api") := by
  unfold jsonStep jsonOkB
  cases harc : env.json with
  | exn m => intro h; simp at h
  | resp status posts =>
    intro h
    simp only [Bool.and_eq_true, beq_iff_eq] at h
    have h2 : posts ≠ [] := by
      intro hnil
      rw [hnil] at h
      simp at h
    refine ⟨_, if_pos ⟨h.1, h2⟩, ?_⟩
    intro r hr
    simp only [List.mem_map] at hr
    obtain ⟨p, _, hre⟩ := hr
    rw [← hre]
    simp [RRes.tag, jsonPostOut]

theorem scrapeRedditSource_order (envs : Str → RedditEnv) (opts : ROptions)
    (source : Str) :
    (scrapeRedditSource envs opts source).2 =
      prefixUpTo (redditOks (envs (cleanSubreddit source))) redditNames ∧
    ∀ r ∈ (scrapeRedditSource envs opts source).1,
      r.tag = firstTag (redditOks (envs (cleanSubreddit source))) redditNames := by
  cases hA : arcticOkB (envs (cleanSubreddit source))
  · cases hR : rssOkB (envs (cleanSubreddit source))
    · cases hJ : jsonOkB (envs (cleanSubreddit source))
      · simp only [scrapeRedditSource, arcticStep_none _ opts _ hA,
          rssStep_none _ _ hR, jsonStep_none _ _ hJ]
        simp [prefixUpTo, firstTag, redditOks, hA, hR, hJ, List.findIdx?, RRes.tag]
      · obtain ⟨rs, hstep, htags⟩ := jsonStep_some_tags _ (cleanSubreddit source) hJ
        simp only [scrapeRedditSource, arcticStep_none _ opts _ hA,
          rssStep_none _ _ hR, hstep]
        constructor
        · simp [prefixUpTo, redditOks, hA, hR, hJ, List.findIdx?, redditNames]
        · intro r hr
          rw [htags r hr]
          simp [firstTag, redditOks, hA, hR, hJ, List.findIdx?, redditNames]
    · obtain ⟨rs, hstep, htags⟩ := rssStep_some_tags _ (cleanSubreddit source) hR
      simp only [scrapeRedditSource, arcticStep_none _ opts _ hA, hstep]
      constructor
      · simp [prefixUpTo, redditOks, hA, hR, List.findIdx?, redditNames]
      · intro r hr
        rw [htags r hr]
        simp [firstTag, redditOks, hA, hR, List.findIdx?, redditNames]
  · obtain ⟨rs, hstep, htags⟩ := arcticStep_some_tags _ opts (cleanSubreddit source) hA
    simp only [scrapeRedditSource, hstep]
    constructor
    · simp [prefixUpTo, redditOks, hA, List.findIdx?, redditNames]
    · intro r hr
      rw [htags r hr]
      simp [firstTag, redditOks, hA, List.findIdx?, redditNames]

theorem twEnhancedStep_none (env : TwitterEnv) (u : Str)
    (hav : env.enhancedAvailable = true) :
    enhancedOkB env = false → twEnhancedStep env u = none := by
  intro h
  unfold enhancedOkB at h
  simp only [twEnhancedStep, hav, if_true]
  cases he : env.enhanced with
  | exn m => simp
  | ret ts =>
    rw [he] at h
    simp only [if_true]
    rw [if_neg]
    rintro ⟨h1, h2⟩
    have hne : ts.isEmpty = false := by
      cases ts
      · exact absurd rfl h1
      · rfl
    simp [hne] at h
    rw [List.any_eq_true] at h2
    exact h2 h

theorem twEnhancedStep_some_tags (env : TwitterEnv) (u : Str)
    (hav : env.enhancedAvailable = true) :
    enhancedOkB env = true →
    ∃ rs, twEnhancedStep env u = some rs ∧
      ∀ r ∈ rs, TwRes.tag r = some (str "syndication_enhanced") := by
  intro h
  unfold enhancedOkB at h
  simp only [twEnhancedStep, hav, if_true]
  cases he : env.enhanced with
  | exn m => rw [he] at h; simp at h
  | ret ts =>
    rw [he] at h
    simp only [Bool.and_eq_true, Bool.not_eq_true'] at h
    have h1 : ts ≠ [] := by
      intro hnil
      rw [hnil] at h
      simp at h
    have h2 : ¬ts.any (fun t => t.error.isSome) = true := by
      rw [h.2]
      simp
    refine ⟨_, if_pos ⟨h1, h2⟩, ?_⟩
    intro r hr
    simp only [List.mem_map] at hr
    obtain ⟨t, _, hre⟩ := hr
    rw [← hre]
    rfl

theorem twXcancelStep_none (env : TwitterEnv) (u : Str)
    (hav : env.xcancelAvailable = true) :
    xcancelOkB env = false → twXcancelStep env u = none := by
  intro h
  unfold xcancelOkB at h
  simp only [twXcancelStep, hav, if_true]
  cases he : env.xcancel with
  | exn m => simp
  | ret ts =>
    rw [he] at h
    simp only [if_true]
    rw [if_neg]
    rintro ⟨h1, h2⟩
    have hne : ts.isEmpty = false := by
      cases ts
      · exact absurd rfl h1
      · rfl
    simp [hne] at h
    rw [List.any_eq_true] at h2
    exact h2 h

theorem twXcancelStep_some_tags (env : TwitterEnv) (u : Str)
    (hav : env.xcancelAvailable = true) :
    xcancelOkB env = true →
    ∃ rs, twXcancelStep env u = some rs ∧
      ∀ r ∈ rs, TwRes.tag r = some (str "xcancel_complete_timeline") := by
  intro h
  unfold xcancelOkB at h
  simp only [twXcancelStep, hav, if_true]
  cases he : env.xcancel with
  | exn m => rw [he] at h; simp at h
  | ret ts =>
    rw [he] at h
    simp only [Bool.and_eq_true, Bool.not_eq_true'] at h
    have h1 : ts ≠ [] := by
      intro hnil
      rw [hnil] at h
      simp at h
    have h2 : ¬ts.any (fun t => t.error.isSome) = true := by
      rw [h.2]
      simp
    refine ⟨_, if_pos ⟨h1, h2⟩, ?_⟩
    intro r hr
    simp only [List.mem_map] at hr
    obtain ⟨t, _, hre⟩ := hr
    rw [← hre]
    rfl

theorem twBasicStep_none (env : TwitterEnv) (u : Str)
    (hav : env.basicAvailable = true) :
    basicOkB env = false → twBasicStep env u = none := by
  intro h
  unfold basicOkB at h
  simp only [twBasicStep, hav, if_true]
  cases he : env.basic with
  | exn m => simp
  | ret ts =>
    rw [he] at h
    simp only [if_true]
    rw [if_neg]
    intro h1
    have hne : ts.isEmpty = false := by
      cases ts
      · exact absurd rfl h1
      · rfl
    simp [hne] at h

theorem twBasicStep_some_tags (env : TwitterEnv) (u : Str)
    (hav : env.basicAvailable = true) :
    basicOkB env = true →
    ∃ rs, twBasicStep env u = some rs ∧
      ∀ r ∈ rs, TwRes.tag r = some (str "syndication_api_popular") := by
  intro h
  unfold basicOkB at h
  simp only [twBasicStep, hav, if_true]
  cases he : env.basic with
  | exn m => rw [he] at h; simp at h
  | ret ts =>
    rw [he] at h
    have h1 : ts ≠ [] := by
      intro hnil
      rw [hnil] at h
      simp at h
    refine ⟨_, if_pos h1, ?_⟩
    intro r hr
    simp only [List.mem_map] at hr
    obtain ⟨t, _, hre⟩ := hr
    rw [← hre]
    rfl

theorem scrapeTwitterTimeline_order (env : TwitterEnv) (source : Str)
    (hEnh : env.enhancedAvailable = true) (hXc : env.xcancelAvailable = true)
    (hBas : env.basicAvailable = true) :
    (scrapeTwitterTimeline env source).2 = prefixUpTo (twitterOks env) twitterNames ∧
    ∀ r ∈ (scrapeTwitterTimeline env source).1,
      r.tag = firstTag (twitterOks env) twitterNames := by
  cases hE : enhancedOkB env
  · cases hX : xcancelOkB env
    · cases hB : basicOkB env
      · simp only [scrapeTwitterTimeline, twEnhancedStep_none env _ hEnh hE,
          twXcancelStep_none env _ hXc hX, twBasicStep_none env _ hBas hB]
        simp [prefixUpTo, firstTag, twitterOks, hE, hX, hB, List.findIdx?,
          hEnh, hXc, hBas, TwRes.tag, twitterNames]
      · obtain ⟨rs, hstep, htags⟩ := twBasicStep_some_tags env
          (replaceAll (str "@") [] (pyStrip source)) hBas hB
        simp only [scrapeTwitterTimeline, twEnhancedStep_none env _ hEnh hE,
          twXcancelStep_none env _ hXc hX, hstep]
        constructor
        · simp [prefixUpTo, twitterOks, hE, hX, hB, List.findIdx?,
            hEnh, hXc, hBas, twitterNames]
        · intro r hr
          rw [htags r hr]
          simp [firstTag, twitterOks, hE, hX, hB, List.findIdx?, twitterNames]
    · obtain ⟨rs, hstep, htags⟩ := twXcancelStep_some_tags env
        (replaceAll (str "@") [] (pyStrip source)) hXc hX
      simp only [scrapeTwitterTimeline, twEnhancedStep_none env _ hEnh hE, hstep]
      constructor
      · simp [prefixUpTo, twitterOks, hE, hX, List.findIdx?, hEnh, hXc, twitterNames]
      · intro r hr
        rw [htags r hr]
        simp [firstTag, twitterOks, hE, hX, List.findIdx?, twitterNames]
  · obtain ⟨rs, hstep, htags⟩ := twEnhancedStep_some_tags env
      (replaceAll (str "@") [] (pyStrip source)) hEnh hE
    simp only [scrapeTwitterTimeline, hstep]
    constructor
    · simp [prefixUpTo, twitterOks, hE, List.findIdx?, hEnh, twitterNames]
    · intro r hr
      rw [htags r hr]
      simp [firstTag, twitterOks, hE, List.findIdx?, twitterNames]

/-- C1: for both platforms the resolver tries the declared strategies
strictly in declared order and stops at the first success: the instrumented
attempt list is exactly the declared order cut after the first succeeding
strategy (the whole order when none succeeds), and every produced record
carries the first succeeding strategy's provenance tag.  Reddit order:
Arctic Shift, RSS, old.reddit JSON; Twitter order: enhanced syndication,
xcancel, basic syndication (all three Twitter scrapers importable). -/
theorem c1_fallback_first_success_order (envs : Str → RedditEnv) (opts : ROptions)
    (source : Str) (tenv : TwitterEnv) (tsource : Str)
    (hEnh : tenv.enhancedAvailable = true) (hXc : tenv.xcancelAvailable = true)
    (hBas : tenv.basicAvailable = true) :
    ((scrapeRedditSource envs opts source).2 =
        prefixUpTo (redditOks (envs (cleanSubreddit source))) redditNames ∧
      ∀ r ∈ (scrapeRedditSource envs opts source).1,
        r.tag = firstTag (redditOks (envs (cleanSubreddit source))) redditNames) ∧
    ((scrapeTwitterTimeline tenv tsource).2 =
        prefixUpTo (twitterOks tenv) twitterNames ∧
      ∀ r ∈ (scrapeTwitterTimeline tenv tsource).1,
        r.tag = firstTag (twitterOks tenv) twitterNames) :=
  ⟨scrapeRedditSource_order envs opts source,
   scrapeTwitterTimeline_order tenv tsource hEnh hXc hBas⟩

/-- Witness for C1: Arctic fails with HTTP 500 and RSS succeeds, so exactly
the first two Reddit strategies are attempted; enhanced syndication returns
an error entry and xcancel succeeds, so exactly the first two Twitter
strategies are attempted. -/
theorem c1_fallback_first_success_order_witness :
    (twEnvXcWins.enhancedAvailable = true ∧ twEnvXcWins.xcancelAvailable = true ∧
      twEnvXcWins.basicAvailable = true) ∧
    (((scrapeRedditSource (fun _ => envRssWins) {} (str "r/test")).2 =
        prefixUpTo (redditOks envRssWins) redditNames ∧
      ∀ r ∈ (scrapeRedditSource (fun _ => envRssWins) {} (str "r/test")).1,
        r.tag = firstTag (redditOks envRssWins) redditNames) ∧
    ((scrapeTwitterTimeline twEnvXcWins (str "@alice")).2 =
        prefixUpTo (twitterOks twEnvXcWins) twitterNames ∧
      ∀ r ∈ (scrapeTwitterTimeline twEnvXcWins (str "@alice")).1,
        r.tag = firstTag (twitterOks twEnvXcWins) twitterNames)) :=
  ⟨⟨rfl, rfl, rfl⟩,
   c1_fallback_first_success_order (fun _ => envRssWins) {} (str "r/test")
     twEnvXcWins (str "@alice") rfl rfl rfl⟩

/-! ## All-strategies-failed behaviour (C2) -/

theorem scrapeRedditSource_allFail (envs : Str → RedditEnv) (opts : ROptions)
    (source : Str)
    (hA : arcticOkB (envs (cleanSubreddit source)) = false)
    (hR : rssOkB (envs (cleanSubreddit source)) = false)
    (hJ : jsonOkB (envs (cleanSubreddit source)) = false) :
    (scrapeRedditSource envs opts source).1 =
      [RRes.allFail (str "r/" ++ cleanSubreddit source)
        (str "All Reddit access methods failed")
        (str "Try again later or check subreddit name")
        [str "Arctic Shift API", str "RSS Feed", str "JSON API"]
        (str "Arctic Shift API is most reliable for serverless environments")] := by
  simp only [scrapeRedditSource, arcticStep_none _ opts _ hA,
    rssStep_none _ _ hR, jsonStep_none _ _ hJ]

theorem twEnhancedStep_none_eff (env : TwitterEnv) (u : Str)
    (h : env.enhancedAvailable = false ∨ enhancedOkB env = false) :
    twEnhancedStep env u = none := by
  cases hav : env.enhancedAvailable
  · simp [twEnhancedStep, hav]
  · rcases h with h | h
    · rw [hav] at h
      simp at h
    · exact twEnhancedStep_none env u hav h

theorem twXcancelStep_none_eff (env : TwitterEnv) (u : Str)
    (h : env.xcancelAvailable = false ∨ xcancelOkB env = false) :
    twXcancelStep env u = none := by
  cases hav : env.xcancelAvailable
  · simp [twXcancelStep, hav]
  · rcases h with h | h
    · rw [hav] at h
      simp at h
    · exact twXcancelStep_none env u hav h

theorem twBasicStep_none_eff (env : TwitterEnv) (u : Str)
    (h : env.basicAvailable = false ∨ basicOkB env = false) :
    twBasicStep env u = none := by
  cases hav : env.basicAvailable
  · simp [twBasicStep, hav]
  · rcases h with h | h
    · rw [hav] at h
      simp at h
    · exact twBasicStep_none env u hav h

theorem scrapeTwitterTimeline_allFail (env : TwitterEnv) (source : Str)
    (h1 : env.enhancedAvailable = false ∨ enhancedOkB env = false)
    (h2 : env.xcancelAvailable = false ∨ xcancelOkB env = false)
    (h3 : env.basicAvailable = false ∨ basicOkB env = false) :
    (scrapeTwitterTimeline env source).1 =
      [TwRes.failure ('@' :: replaceAll (str "@") [] (pyStrip source))
        (str "Could not fetch tweets from any available source")] := by
  simp only [scrapeTwitterTimeline, twEnhancedStep_none_eff env _ h1,
    twXcancelStep_none_eff env _ h2, twBasicStep_none_eff env _ h3]

/-- C2 counterexample: two worlds in which every Reddit strategy fails with
different failure reasons produce identical outputs, so the error object
cannot enumerate per-strategy failure reasons; the record is the fixed
all-failed dict.  The Twitter all-failed record carries only a generic
message, naming neither the attempted strategies nor their reasons. -/
theorem c2_failure_reasons_counterexample :
    (scrapeRedditSource
        (fun _ => envAllFail (str "connect timeout") (str "rss parse error") 500)
        {} (str "r/test")).1 =
      (scrapeRedditSource
        (fun _ => envAllFail (str "dns failure") (str "http 429")  404)
        {} (str "r/test")).1 ∧
    (envAllFail (str "connect timeout") (str "rss parse error") 500).arctic =
      Outcome.exn (str "connect timeout") ∧
    (envAllFail (str "dns failure") (str "http 429") 404).arctic =
      Outcome.exn (str "dns failure") ∧
    str "connect timeout" ≠ str "dns failure" ∧
    (scrapeTwitterTimeline (twEnvAllFail (str "enhanced timed out")) (str "@bob")).1 =
      [TwRes.failure (str "@bob")
        (str "Could not fetch tweets from any available source")] := by
  refine ⟨by decide, rfl, rfl, by decide, by decide⟩

/-- C2 (amended): when every strategy fails the resolver appends a
structured error record and never an empty success: for Reddit the record
names the three available methods (but carries no per-strategy failure
reasons); for Twitter it carries a single generic error message that
enumerates neither strategies nor reasons. -/
theorem c2_all_fail_error_record (envs : Str → RedditEnv) (opts : ROptions)
    (source : Str) (tenv : TwitterEnv) (tsource : Str)
    (hA : arcticOkB (envs (cleanSubreddit source)) = false)
    (hR : rssOkB (envs (cleanSubreddit source)) = false)
    (hJ : jsonOkB (envs (cleanSubreddit source)) = false)
    (h1 : tenv.enhancedAvailable = false ∨ enhancedOkB tenv = false)
    (h2 : tenv.xcancelAvailable = false ∨ xcancelOkB tenv = false)
    (h3 : tenv.basicAvailable = false ∨ basicOkB tenv = false) :
    (scrapeRedditSource envs opts source).1 =
      [RRes.allFail (str "r/" ++ cleanSubreddit source)
        (str "All Reddit access methods failed")
        (str "Try again later or check subreddit name")
        [str "Arctic Shift API", str "RSS Feed", str "JSON API"]
        (str "Arctic Shift API is most reliable for serverless environments")] ∧
    (scrapeTwitterTimeline tenv tsource).1 =
      [TwRes.failure ('@' :: replaceAll (str "@") [] (pyStrip tsource))
        (str "Could not fetch tweets from any available source")] :=
  ⟨scrapeRedditSource_allFail envs opts source hA hR hJ,
   scrapeTwitterTimeline_allFail tenv tsource h1 h2 h3⟩

/-- Witness for the amended C2 at concrete all-failing environments. -/
theorem c2_all_fail_error_record_witness :
    (arcticOkB (envAllFail (str "connect timeout") (str "rss down") 500) = false ∧
     rssOkB (envAllFail (str "connect timeout") (str "rss down") 500) = false ∧
     jsonOkB (envAllFail (str "connect timeout") (str "rss down") 500) = false ∧
     (enhancedOkB (twEnvAllFail (str "boom")) = false ∧
      xcancelOkB (twEnvAllFail (str "boom")) = false ∧
      basicOkB (twEnvAllFail (str "boom")) = false)) ∧
    ((scrapeRedditSource (fun _ => envAllFail (str "connect timeout") (str "rss down") 500)
        {} (str "r/test")).1 =
      [RRes.allFail (str "r/" ++ cleanSubreddit (str "r/test"))
        (str "All Reddit access methods failed")
        (str "Try again later or check subreddit name")
        [str "Arctic Shift API", str "RSS Feed", str "JSON API"]
        (str "Arctic Shift API is most reliable for serverless environments")] ∧
     (scrapeTwitterTimeline (twEnvAllFail (str "boom")) (str "@bob")).1 =
      [TwRes.failure ('@' :: replaceAll (str "@") [] (pyStrip (str "@bob")))
        (str "Could not fetch tweets from any available source")]) :=
  ⟨⟨by decide, by decide, by decide, by decide, by decide, by decide⟩,
   c2_all_fail_error_record
     (fun _ => envAllFail (str "connect timeout") (str "rss down") 500) {}
     (str "r/test") (twEnvAllFail (str "boom")) (str "@bob")
     (by decide) (by decide) (by decide)
     (Or.inr (by decide)) (Or.inr (by decide)) (Or.inr (by decide))⟩

/-! ## The mocked ten-post payload (C6) -/

/-- C6: on the mocked Reddit `hot` payload of ten posts, the normalizer
emits exactly ten records, every record's platform is `reddit`, and every
`created_at` is the ISO8601 rendering of the post's Unix `created_utc`
(checked against independently written expected strings); the same holds
end-to-end through the `scrape.py` chain when the JSON strategy serves the
payload, which also tags all ten records with `json_api`. -/
theorem c6_normalizer_ten_posts :
    ((scrapeRedditHot (.resp 200 hotPayload) { fetch_comments := some false }
        (fun _ => [])).length = 10 ∧
     (scrapeRedditHot (.resp 200 hotPayload) { fetch_comments := some false }
        (fun _ => [])).map FormattedPost.platform =
       List.replicate 10 (str "reddit") ∧
     (scrapeRedditHot (.resp 200 hotPayload) { fetch_comments := some false }
        (fun _ => [])).map FormattedPost.created_at = hotExpectedIso) ∧
    ((scrapeRedditSource (fun _ => c6Env) {} (str "r/test")).1.length = 10 ∧
     (scrapeRedditSource (fun _ => c6Env) {} (str "r/test")).1.map RRes.platformOf =
       List.replicate 10 (some (str "reddit")) ∧
     (scrapeRedditSource (fun _ => c6Env) {} (str "r/test")).1.map RRes.createdAtOf =
       hotExpectedIso.map some ∧
     (scrapeRedditSource (fun _ => c6Env) {} (str "r/test")).1.map RRes.tag =
       List.replicate 10 (some (str "json_api"))) := by
  refine ⟨⟨by decide, by decide, by decide⟩, by decide, by decide, by decide, by decide⟩

/-! ## Per-source error capture in a batch (C7) -/

theorem scrapeInstagram_append (envs : Str → Outcome (Option IgUser))
    (l1 l2 : List Str) :
    scrapeInstagram envs (l1 ++ l2) =
      scrapeInstagram envs l1 ++ scrapeInstagram envs l2 := by
  induction l1 with
  | nil => rfl
  | cons s rest ih => simp [scrapeInstagram, ih]

theorem scrapeReddit_append (envs : Str → RedditEnv) (opts : ROptions)
    (l1 l2 : List PyVal) :
    scrapeReddit envs opts (l1 ++ l2) =
      scrapeReddit envs opts l1 ++ scrapeReddit envs opts l2 := by
  induction l1 with
  | nil => rfl
  | cons s rest ih =>
    cases s with
    | pstr v => simp [scrapeReddit, ih]
    | other rep em => simp [scrapeReddit, ih]

theorem scrapeInstagramOne_exn (envs : Str → Outcome (Option IgUser))
    (source msg : Str)
    (h : envs (replaceAll (str "@") [] (pyStrip source)) = .exn msg) :
    scrapeInstagramOne envs source =
      .exnError ('@' :: replaceAll (str "@") [] (pyStrip source)) msg := by
  simp [scrapeInstagramOne, h]

/-- C7: a failure while processing one source becomes an error record for
that source, in place, and the records of every other source in the batch
are unchanged: an Instagram source whose request raises contributes exactly
one `error` record between its neighbours' results, and a Reddit source
whose processing raises (a non-string source raising at `.strip()`)
contributes exactly one `Unexpected error` record between its neighbours'
results. -/
theorem c7_batch_isolation (envs : Str → Outcome (Option IgUser))
    (pre post : List Str) (bad : Str) (msg : Str)
    (hb : envs (replaceAll (str "@") [] (pyStrip bad)) = .exn msg)
    (renvs : Str → RedditEnv) (ropts : ROptions) (rpre rpost : List PyVal)
    (rep em : Str) :
    scrapeInstagram envs (pre ++ bad :: post) =
      scrapeInstagram envs pre ++
        IgRes.exnError ('@' :: replaceAll (str "@") [] (pyStrip bad)) msg ::
          scrapeInstagram envs post ∧
    scrapeReddit renvs ropts (rpre ++ PyVal.other rep em :: rpost) =
      scrapeReddit renvs ropts rpre ++
        RRes.unexpected rep (str "Unexpected error: " ++ em) ::
          scrapeReddit renvs ropts rpost := by
  constructor
  · rw [scrapeInstagram_append]
    simp [scrapeInstagram, scrapeInstagramOne_exn envs bad msg hb]
  · rw [scrapeReddit_append]
    simp [scrapeReddit]

/-- Witness for C7: the middle Instagram source fails with a connection
error; both neighbours' profile records still appear around its error
record, and a non-string Reddit source is captured the same way. -/
theorem c7_batch_isolation_witness :
    (igEnvWitness (replaceAll (str "@") [] (pyStrip (str "bad"))) =
      .exn (str "ConnectionError")) ∧
    (scrapeInstagram igEnvWitness ([str "alice"] ++ (str "bad") :: [str "carol"]) =
      scrapeInstagram igEnvWitness [str "alice"] ++
        IgRes.exnError ('@' :: replaceAll (str "@") [] (pyStrip (str "bad")))
          (str "ConnectionError") ::
          scrapeInstagram igEnvWitness [str "carol"] ∧
     scrapeReddit (fun _ => envRssWins) {}
        ([PyVal.pstr (str "r/a")] ++ PyVal.other (str "3") (str "int has no strip") ::
          [PyVal.pstr (str "r/b")]) =
      scrapeReddit (fun _ => envRssWins) {} [PyVal.pstr (str "r/a")] ++
        RRes.unexpected (str "3")
          (str "Unexpected error: " ++ str "int has no strip") ::
          scrapeReddit (fun _ => envRssWins) {} [PyVal.pstr (str "r/b")]) :=
  ⟨by decide,
   c7_batch_isolation igEnvWitness [str "alice"] [str "carol"] (str "bad")
     (str "ConnectionError") (by decide) (fun _ => envRssWins) {}
     [PyVal.pstr (str "r/a")] [PyVal.pstr (str "r/b")] (str "3")
     (str "int has no strip")⟩

end Harvest
